/-
Verification of the Research Orchestration Pipeline of the Goldfinch
repository against its natural-language specification.

Shallow embedding: the Python functions of
  src/src/services/perplexity_service.py
  src/src/services/openai_service.py
  src/src/core/workflows.py
  src/src/api/endpoints.py
  src/database/services/database_service.py
are translated into executable Lean definitions.  Calls to external
collaborators (OpenAI, Perplexity, the relational store) are modelled by
oracle parameters describing the collaborator's response; everything the
repository's own code does with those responses is embedded faithfully.
-/
import Mathlib

namespace Goldfinch

/-! ## Link extraction (src/src/services/perplexity_service.py, lines 87-91)

`extract_links_from_content` runs the regular expression
`https?://[^\s\]\)\,\;\"\'\<\>]+` over the content (`re.findall`: leftmost,
non-overlapping matches) and removes duplicates with `list(set(links))`.
CPython's set iteration order is unspecified; the model fixes the
first-occurrence order.  `\s` is modelled by the ASCII whitespace
characters. -/

/-- Characters excluded from the URL body by the character class
`[^\s\]\)\,\;\"\'\<\>]` of the regex in `extract_links_from_content`
(code point 39 is the single-quote character). -/
def isUrlStopChar (c : Char) : Bool :=
  c == ' ' || c == '\t' || c == '\n' || c == '\r' || c == '\x0b' || c == '\x0c' ||
  c == ']' || c == ')' || c == ',' || c == ';' || c == '"' ||
  c.toNat == 39 || c == '<' || c == '>'

/-- Match the `https?://` part of the regex at the head of the character
list; returns the matched scheme text and the remaining characters.  The
optional `s` is greedy, as in the regex. -/
def matchUrlScheme : List Char → Option (List Char × List Char)
  | 'h' :: 't' :: 't' :: 'p' :: 's' :: ':' :: '/' :: '/' :: rest =>
      some (['h', 't', 't', 'p', 's', ':', '/', '/'], rest)
  | 'h' :: 't' :: 't' :: 'p' :: ':' :: '/' :: '/' :: rest =>
      some (['h', 't', 't', 'p', ':', '/', '/'], rest)
  | _ => none

/-- One pass of `re.findall` for the URL pattern: scan left to right, and on
a match (scheme followed by at least one non-stop character) emit it and
continue after the match.  `fuel` bounds the recursion by the input length. -/
def findUrlsAux : Nat → List Char → List String
  | 0, _ => []
  | _ + 1, [] => []
  | fuel + 1, c :: cs =>
      match matchUrlScheme (c :: cs) with
      | some (scheme, rest) =>
          let body := rest.takeWhile (fun ch => !(isUrlStopChar ch))
          let rest' := rest.dropWhile (fun ch => !(isUrlStopChar ch))
          if body.isEmpty then
            findUrlsAux fuel cs
          else
            String.mk (scheme ++ body) :: findUrlsAux fuel rest'
      | none => findUrlsAux fuel cs

/-- `PerplexityService.extract_links_from_content`: find all URL matches and
deduplicate them. -/
def extract_links_from_content (content : String) : List String :=
  (findUrlsAux (content.data.length + 1) content.data).dedup

/-! ## Search tasks and the Parallel Search Executor
(src/src/core/workflows.py) -/

/-- A search task as built by `generate_and_map_research_queries`:
`{"type": ..., "query": ..., "websites": ...}` where `type` is
`"general_web"` or `"domain_filtered"`. -/
structure SearchTask where
  type : String
  query : String
  websites : List String
deriving DecidableEq, Repr

/-- One processed search result record, the dict shape produced by
`execute_search_task` / the result-processing loops in workflows.py. -/
structure SearchResult where
  query : String
  result : String
  citations : List String
  extracted_links : List String
  status : String
  search_type : String
  websites : List String
deriving DecidableEq, Repr

/-- Oracle for the outcome of the awaited
`asyncio.wait_for(self.perplexity_service.search(...), timeout=30.0)` call
inside `execute_search_task` (workflows.py lines 325-344), together with
anything else the task body may raise:
* `ok content citations` — the search returned a dict,
* `timeout` — `asyncio.TimeoutError` from the 30-second `wait_for`,
* `exn e` — any other exception (transport error, a progress callback
  raising on cancellation, ...), with text `e`. -/
inductive SearchOutcome where
  | ok (content : String) (citations : List String)
  | timeout
  | exn (e : String)
deriving DecidableEq, Repr

/-- `execute_search_task` (workflows.py lines 300-382, the closure inside
`execute_workflow_with_progress`).  `router_decision` only selects which
prompt and output format the outbound Perplexity call uses; the call's
outcome is the oracle `outcome`.  Every branch returns a dict that retains
the originating task's query, websites and type. -/
def execute_search_task (_router_decision : String) (task : SearchTask)
    (outcome : SearchOutcome) : SearchResult :=
  match outcome with
  | .ok content citations =>
      { query := task.query
        result := content
        citations := citations
        extracted_links := extract_links_from_content content
        status := "success"
        search_type := task.type
        websites := task.websites }
  | .timeout =>
      { query := task.query
        result := "Search timeout - no results available"
        citations := []
        extracted_links := []
        status := "timeout"
        search_type := task.type
        websites := task.websites }
  | .exn e =>
      { query := task.query
        result := "Error: " ++ e
        citations := []
        extracted_links := []
        status := "error"
        search_type := task.type
        websites := task.websites }

/-- One element of the list returned by
`asyncio.gather(..., return_exceptions=True)` in
`execute_workflow_with_progress` (workflows.py line 388): either the dict a
task coroutine returned, or an exception object that escaped it (e.g.
`asyncio.CancelledError`, which the task body's `except Exception` does not
catch). -/
inductive GatherItem where
  | ok (r : SearchResult)
  | exn (e : String)
deriving DecidableEq, Repr

/-- The result-processing loop of `execute_workflow_with_progress`
(workflows.py lines 394-407): a dict is kept as is, an exception becomes an
`error` record built from the task at the same index. -/
def process_gather_result (task : SearchTask) (item : GatherItem) : SearchResult :=
  match item with
  | .ok r => r
  | .exn e =>
      { query := task.query
        result := "Unexpected error: " ++ e
        citations := []
        extracted_links := []
        status := "error"
        search_type := task.type
        websites := task.websites }

/-- `execute_workflow_with_progress`, result-collection part (workflows.py
lines 384-407): `asyncio.gather` yields one item per task in task order
(`items`), and the loop `for i, result in enumerate(search_results)` builds
one record per item, reading `search_tasks[i]` for the exception case.
With `items.length = tasks.length` (the gather guarantee) the loop is
`zipWith`. -/
def execute_workflow_with_progress_results (tasks : List SearchTask)
    (items : List GatherItem) : List SearchResult :=
  List.zipWith process_gather_result tasks items

/-- Oracle for one task of the plain `execute_workflow` executor
(workflows.py lines 124-158): its inner closure does not catch exceptions,
so the gather item is either the search provider's dict (`ok`) or the
escaped exception (`exn`). -/
inductive BaseGatherItem where
  | ok (content : String) (citations : List String)
  | exn (e : String)
deriving DecidableEq, Repr

/-- The result-processing loop of `execute_workflow` (workflows.py lines
160-183). -/
def process_base_result (task : SearchTask) (item : BaseGatherItem) : SearchResult :=
  match item with
  | .ok content citations =>
      { query := task.query
        result := content
        citations := citations
        extracted_links := extract_links_from_content content
        status := "success"
        search_type := task.type
        websites := task.websites }
  | .exn e =>
      { query := task.query
        result := "Error: " ++ e
        citations := []
        extracted_links := []
        status := "error"
        search_type := task.type
        websites := task.websites }

/-- `execute_workflow`, result-collection part (workflows.py lines
157-183). -/
def execute_workflow_results (tasks : List SearchTask)
    (items : List BaseGatherItem) : List SearchResult :=
  List.zipWith process_base_result tasks items

/-! ## Query Expander and Source Mapper
(src/src/services/openai_service.py) -/

/-- One source descriptor as handed to `map_queries_to_websites`
(`dynamic_websites`).  Of its fields (`name`, `domain`, `homepage`,
`region`, `org_type`, `aliases`, `industry_tags`, `semantic_profile`,
`boost_keywords`) the mapper's own logic reads only `domain` (for the
full-catalog fallback, `site["domain"]`); the others are interpolated into
the prompt of the external call, which the oracle abstracts.  `name` is
kept as the identifying field. -/
structure Site where
  name : String
  domain : String
deriving DecidableEq, Repr

/-- One `{query, websites}` mapping record, the element shape of
`QueryMappings.mappings` and of the mapper's return value. -/
structure Mapping where
  query : String
  websites : List String
deriving DecidableEq, Repr

/-- Oracle for the `self.client.responses.parse(..., text_format=QueryMappings)`
call in `map_queries_to_websites` (openai_service.py lines 150-163): either
the parsed list of mappings, or any exception raised by transport or
parsing. -/
inductive MapResponse where
  | parsed (mappings : List Mapping)
  | failure (e : String)
deriving DecidableEq, Repr

/-- The full-catalog fallback mapping of `map_queries_to_websites`
(openai_service.py lines 167-171 and 180-184): every query mapped to
`[site["domain"] for site in dynamic_websites]`, in query order. -/
def default_mapping (generated_queries : List String)
    (dynamic_websites : List Site) : List Mapping :=
  generated_queries.map fun query =>
    { query := query, websites := dynamic_websites.map (·.domain) }

/-- `OpenAIService.map_queries_to_websites` (openai_service.py lines
124-185).  On a parsed response the mappings are taken verbatim from the
external call; if their number differs from `len(generated_queries)`, or if
the call raised, the result is discarded in favour of the full-catalog
fallback. -/
def map_queries_to_websites (generated_queries : List String)
    (dynamic_websites : List Site) (response : MapResponse) : List Mapping :=
  match response with
  | .parsed mappings =>
      if mappings.length ≠ generated_queries.length then
        default_mapping generated_queries dynamic_websites
      else
        mappings
  | .failure _ =>
      default_mapping generated_queries dynamic_websites

/-- Oracle for the `self.client.responses.parse(..., text_format=ResearchQueries)`
call in `generate_and_map_research_queries` (openai_service.py lines
82-89): the parsed list of sub-queries, or any exception. -/
inductive ExpandResult where
  | ok (queries : List String)
  | failure (e : String)
deriving DecidableEq, Repr

/-- The task-building tail of `generate_and_map_research_queries`
(openai_service.py lines 104-122): one `general_web` task per generated
query in order, followed by one `domain_filtered` task per mapping whose
`websites` list is non-empty (Python truthiness of `mapping["websites"]`),
in mapping order. -/
def build_search_tasks (generated_queries : List String)
    (query_mappings : List Mapping) : List SearchTask :=
  (generated_queries.map fun query =>
    { type := "general_web", query := query, websites := ([] : List String) })
  ++ ((query_mappings.filter fun m => !m.websites.isEmpty).map fun m =>
    { type := "domain_filtered", query := m.query, websites := m.websites })

/-- `OpenAIService.generate_and_map_research_queries` (openai_service.py
lines 67-122).  Control flow of the source:
* `generated_queries = [router_query]` is assigned first (line 73);
* inside the `try`, `SYSTEM_PROMPT` is bound only for `Provide_a_List` /
  `Search_the_Internet`; for any other decision the parse call raises
  `NameError` on the unbound `SYSTEM_PROMPT`, landing in the `except`;
* the `except` re-assigns `generated_queries = [router_query]` (the
  intended fallback, lines 95-98);
* line 100 then executes
  `print(f"[DEBUG] Queries to be mapped ({len(queries)}): {queries}")`,
  and `queries` is bound only when the parse call succeeded (line 90) —
  so on every fallback path the function raises an uncaught `NameError`
  instead of returning, modelled as `.error`. -/
def generate_and_map_research_queries (router_decision _router_query : String)
    (dynamic_websites : List Site) (expand : ExpandResult)
    (mapResponse : MapResponse) : Except String (List SearchTask) :=
  if router_decision == "Provide_a_List" || router_decision == "Search_the_Internet" then
    match expand with
    | .ok queries =>
        let generated_queries := queries
        let query_mappings :=
          map_queries_to_websites generated_queries dynamic_websites mapResponse
        .ok (build_search_tasks generated_queries query_mappings)
    | .failure _ =>
        .error "NameError: name queries is not defined"
  else
    .error "NameError: name queries is not defined"

/-! ## Conversation store and the cancellation gate
(src/database/services/database_service.py)

The `chat_messages` table is modelled as a list of rows in insertion
order.  The `chat_sessions.message_count` bump performed alongside inserts
(lines 126-130 and 594-598) is not modelled: no claim reads it, and it does
not influence any modelled behaviour. -/

/-- One row of `chat_messages`, restricted to the columns the modelled
operations read or write. -/
structure ChatMessage where
  messageId : String
  sessionId : String
  role : String
  content : String
  messageOrder : Nat
  replyTo : Option String
  type : String
  isCancelled : Bool
deriving DecidableEq, Repr

/-- The modelled store state: the `chat_messages` rows. -/
structure DBState where
  messages : List ChatMessage
deriving DecidableEq, Repr

/-- `COALESCE(MAX(message_order), 0)` over a session's rows (the
`order_query` of lines 569-575). -/
def maxMessageOrder (db : DBState) (session_id : String) : Nat :=
  (db.messages.filter fun m => m.sessionId == session_id).foldl
    (fun acc m => max acc m.messageOrder) 0

/-- The existence check of `is_message_cancelled` (lines 560-566): is there
a row with `reply_to = :message_id AND type = 'cancelled'`? -/
def cancellation_notice_exists (db : DBState) (message_id : String) : Bool :=
  db.messages.any fun m =>
    m.replyTo == some message_id && m.type == "cancelled"

/-- Number of Cancellation Notice rows pointing at `message_id`. -/
def noticeCount (db : DBState) (message_id : String) : Nat :=
  db.messages.countP fun m =>
    m.replyTo == some message_id && m.type == "cancelled"

/-- Does the first `chat_messages` row with the given id carry
`is_cancelled = TRUE`?  (The flag read of lines 545-555.) -/
def cancelled_row (db : DBState) (message_id : String) : Bool :=
  match db.messages.find? (fun m => m.messageId == message_id) with
  | some row => row.isCancelled
  | none => false

/-- The body of `DatabaseService.is_message_cancelled` (lines 544-600),
i.e. everything inside the `try`.  `session_id` is `some sid` when Python's
`session_id` argument is truthy (a non-empty string), `none` otherwise.
`fresh_message_id` stands for the generated
`msg_{timestamp}_{session_id}` id of a newly inserted notice.  Returns the
flag together with the resulting store state. -/
def is_message_cancelled_body (db : DBState) (message_id : String)
    (session_id : Option String) (skip_cancellation_message : Bool)
    (fresh_message_id : String) : Bool × DBState :=
  match db.messages.find? (fun m => m.messageId == message_id) with
  | none => (false, db)
  | some row =>
      match session_id with
      | some sid =>
          if row.isCancelled && !skip_cancellation_message then
            if cancellation_notice_exists db message_id then
              (row.isCancelled, db)
            else
              let notice : ChatMessage :=
                { messageId := fresh_message_id
                  sessionId := sid
                  role := "assistant"
                  content := "Response generation stopped by user."
                  messageOrder := maxMessageOrder db sid + 1
                  replyTo := some message_id
                  type := "cancelled"
                  isCancelled := false }
              (row.isCancelled, ⟨db.messages ++ [notice]⟩)
          else
            (row.isCancelled, db)
      | none => (row.isCancelled, db)

/-- Oracle for whether the store is reachable when
`is_message_cancelled` runs: `ok db` means the queries operate on `db`;
`failure e` means the underlying query raises (connection error etc.), in
which case `get_session` rolls the transaction back. -/
inductive StoreAccess where
  | ok (db : DBState)
  | failure (e : String)
deriving DecidableEq, Repr

/-- `DatabaseService.is_message_cancelled` (lines 541-603) including its
`except Exception` handler: on any store failure the error is logged and
`False` is returned (lines 601-603); the function never raises. -/
def is_message_cancelled (access : StoreAccess) (message_id : String)
    (session_id : Option String) (skip_cancellation_message : Bool)
    (fresh_message_id : String) : Bool × StoreAccess :=
  match access with
  | .failure e => (false, .failure e)
  | .ok db =>
      let r := is_message_cancelled_body db message_id session_id
        skip_cancellation_message fresh_message_id
      (r.1, .ok r.2)

/-- Iterated runs of the cancellation-notice creation path: one call of
`is_message_cancelled(message_id, session_id)` (with the default
`skip_cancellation_message=False`) per fresh notice id in `fresh_ids`. -/
def run_notice_path (db : DBState) (message_id session_id : String) :
    List String → DBState
  | [] => db
  | fid :: rest =>
      run_notice_path
        (is_message_cancelled_body db message_id (some session_id) false fid).2
        message_id session_id rest

/-! ## The Orchestration Driver endpoints (src/src/api/endpoints.py)

The endpoints are modelled as functions from the responses of their
collaborators (store, router, expander, mapper, search provider, summary
stream) to the sequence of store writes they perform plus their terminal
event.  Store writes are recorded as `DbEffect`s in program order. -/

/-- The arguments of one `db_service.store_message` call (the generated
message id and timestamp are left to the store). -/
structure StoredMessage where
  role : String
  content : String
  replyTo : Option String
  type : String
deriving DecidableEq, Repr

/-- One store write performed by an endpoint.  `storeResearchRequest`
inserts with `status='pending'` (database_service.py line 254),
`storeQueryLog` with the recorded `status` field, which
`store_query_log` hard-codes to `'pending'` (line 352).
`updateQueryLog i results status` is
`update_query_log(query_id=query_log_ids[i], ...)`. -/
inductive DbEffect where
  | storeMessage (m : StoredMessage)
  | storeResearchRequest (enhanced_query workflow_type : String)
  | updateResearchRequest (status : String)
  | storeQueryLog (query_text query_type : String) (websites : List String)
      (status : String)
  | updateQueryLog (index : Nat) (results status : String)
deriving DecidableEq, Repr

/-- Python's `str.strip()`: remove leading and trailing whitespace.
(`Char.isWhitespace` covers space, tab, carriage return and newline; the
rarer Unicode whitespace Python also strips plays no role here.)  Defined
by structural recursion over the character list so that it evaluates. -/
def python_strip (s : String) : String :=
  String.mk
    (((s.data.dropWhile Char.isWhitespace).reverse.dropWhile
        Char.isWhitespace).reverse)

/-- Result of the summary streaming loop of `chat_stream_summary`
(endpoints.py lines 316-338). -/
inductive LoopResult where
  | truncatedStored (m : StoredMessage)
  | cancelledEmpty
  | done (full_summary : String)
deriving DecidableEq, Repr

/-- The `async for chunk in summary_stream` loop of `chat_stream_summary`
(endpoints.py lines 316-338).  At the top of each iteration the cancellation
flag is re-read (`is_message_cancelled(..., skip_cancellation_message=True)`,
modelled by `cancelledAt k` for the k-th check); if set:
* with non-empty accumulated text (`full_summary.strip()` truthy) the
  partial summary plus the truncation marker is stored as an assistant
  message of type `partial` replying to the user turn, and the loop ends;
* otherwise the loop ends with no store (the existing cancellation message
  is only read via `get_cancellation_message`).
Otherwise the chunk is appended and streamed on. -/
def summary_stream_loop (user_message_id : String) (cancelledAt : Nat → Bool) :
    Nat → String → List String → LoopResult
  | _, full_summary, [] => .done full_summary
  | k, full_summary, chunk :: rest =>
      if cancelledAt k then
        if python_strip full_summary ≠ "" then
          .truncatedStored
            { role := "assistant"
              content := full_summary ++ "\n\n[Generation stopped by user]"
              replyTo := some user_message_id
              type := "partial" }
        else
          .cancelledEmpty
      else
        summary_stream_loop user_message_id cancelledAt (k + 1)
          (full_summary ++ chunk) rest

/-- The fields of the workflow's result dict that `chat_stream_summary`
reads after the research stage (`research_result["search_tasks"]` and
`research_result["search_results"]`). -/
structure WorkflowResult where
  search_tasks : List SearchTask
  search_results : List SearchResult
deriving DecidableEq, Repr

/-- Terminal SSE event of the modelled section of `chat_stream_summary`. -/
inductive StreamEvent where
  | cancelled
  | completed
  | errorEvent (message : String)
deriving DecidableEq, Repr

/-- `chat_stream_summary` from `if research_result:` (endpoints.py line 295)
to the terminal event (line 365/367):
* no result → the `error` event `Research workflow failed`, no writes;
* otherwise: one `store_query_log` (status `pending`) per task of
  `research_result["search_tasks"]` (lines 297-306); then the summary
  streaming loop; on mid-stream cancellation the function returns right
  there — the query-log update loop (lines 349-357) and the research
  request update (lines 360-363) only run when the stream completes, in
  which case the full summary is stored as the assistant turn and each
  result `i < len(query_log_ids)` updates log `i` with its `result` text
  and `status`. -/
def stream_tail (user_message_id : String)
    (research_result : Option WorkflowResult) (chunks : List String)
    (cancelledAt : Nat → Bool) : List DbEffect × StreamEvent :=
  match research_result with
  | none => ([], .errorEvent "Research workflow failed")
  | some r =>
      let logEffects : List DbEffect := r.search_tasks.map fun t =>
        .storeQueryLog t.query t.type t.websites "pending"
      match summary_stream_loop user_message_id cancelledAt 0 "" chunks with
      | .truncatedStored m => (logEffects ++ [.storeMessage m], .cancelled)
      | .cancelledEmpty => (logEffects, .cancelled)
      | .done full_summary =>
          let assistantMessage : StoredMessage :=
            { role := "assistant", content := full_summary
              replyTo := some user_message_id, type := "text" }
          let n := r.search_tasks.length
          let updates : List DbEffect := r.search_results.enum.filterMap
            fun p => if p.1 < n then
                some (.updateQueryLog p.1 p.2.result p.2.status)
              else none
          (logEffects ++ [.storeMessage assistantMessage] ++ updates ++
            [.updateResearchRequest "completed"], .completed)

/-- `get_latest_user_message` (endpoints.py lines 100-105): the content of
the most recent message whose role is `user`.  Messages are `(role,
content)` pairs in chronological order. -/
def get_latest_user_message (messages : List (String × String)) :
    Option String :=
  (messages.reverse.find? fun m => m.1 == "user").map (·.2)

/-- The `/chat/send` endpoint (endpoints.py lines 382-514) as a function of
its collaborators' responses, returning the store writes in program order
and `some error` when an `HTTPException` or an uncaught exception ends the
request.  Oracles: `recent_messages` is what `get_recent_messages`
returns, `rag` the `call_rag_api` outcome, `router_answer` the
`get_router_decision` result (`none` = router timeout/failure sentinel,
`some (type, content)` otherwise), `expand`/`mapResponse`/`base_items` the
outcomes of the expansion, mapping, and per-task search calls, `summary`
the text of `generate_research_summary` (that function catches its own
failures and returns a fallback string), and `user_message_id` the id the
store assigned to the stored user message.

Contract points mirrored from the source: the research request is stored
(status `pending`) for every successful router answer, before the
`direct_response` branch is taken (lines 426-434); the `direct_response`
branch persists the router content as the assistant turn and marks the
request completed (lines 435-463); the research branch stores one pending
query log per task before executing the searches (lines 466-475), updates
log `i` with result `i`'s text and status (lines 482-489), sets the
request's status to the workflow result's status — always `"completed"`
(workflows.py line 190) — and persists the summary as the assistant turn
(lines 491-506). -/
def chat_send (content : String) (recent_messages : List (String × String))
    (rag : Except String (List Site))
    (router_answer : Option (String × String))
    (expand : ExpandResult) (mapResponse : MapResponse)
    (base_items : List BaseGatherItem) (summary : String)
    (user_message_id : String) : List DbEffect × Option String :=
  let userEffect : DbEffect :=
    .storeMessage { role := "user", content := content, replyTo := none,
                    type := "text" }
  match get_latest_user_message recent_messages with
  | none => ([userEffect], some "No user message found in recent messages.")
  | some _ =>
      match rag with
      | .error e => ([userEffect], some e)
      | .ok domain_metadata =>
          match router_answer with
          | none => ([userEffect], some "Router decision failed")
          | some (router_decision, enhanced_query) =>
              let rrEffect : DbEffect :=
                .storeResearchRequest enhanced_query router_decision
              if router_decision == "direct_response" then
                ([userEffect, rrEffect,
                  .storeMessage { role := "assistant",
                                  content := enhanced_query,
                                  replyTo := some user_message_id,
                                  type := "text" },
                  .updateResearchRequest "completed"], none)
              else
                match generate_and_map_research_queries router_decision
                    enhanced_query domain_metadata expand mapResponse with
                | .error e => ([userEffect, rrEffect], some e)
                | .ok parallel_queries =>
                    let logEffects : List DbEffect := parallel_queries.map
                      fun q => .storeQueryLog q.query q.type q.websites "pending"
                    let search_results :=
                      execute_workflow_results parallel_queries base_items
                    let n := parallel_queries.length
                    let updates : List DbEffect :=
                      search_results.enum.filterMap fun p =>
                        if p.1 < n then
                          some (.updateQueryLog p.1 p.2.result p.2.status)
                        else none
                    ([userEffect, rrEffect] ++ logEffects ++ updates ++
                      [.updateResearchRequest "completed",
                       .storeMessage { role := "assistant", content := summary,
                                       replyTo := some user_message_id,
                                       type := "text" }], none)

/-! ## Effect-trace observations -/

/-- Number of `research_requests` inserts in a trace. -/
def research_request_inserts (effects : List DbEffect) : Nat :=
  effects.countP fun e =>
    match e with
    | .storeResearchRequest _ _ => true
    | _ => false

/-- Number of `query_logs` inserts in a trace. -/
def query_log_inserts (effects : List DbEffect) : Nat :=
  effects.countP fun e =>
    match e with
    | .storeQueryLog _ _ _ _ => true
    | _ => false

/-- The `(index, status)` pairs of the query-log updates of a trace, in
order. -/
def query_log_updates (effects : List DbEffect) : List (Nat × String) :=
  effects.filterMap fun e =>
    match e with
    | .updateQueryLog i _ s => some (i, s)
    | _ => none

/-- The status the i-th created query log ends up with after a trace: the
status written by the last update targeting index `i`, or the `pending` it
was inserted with. -/
def last_update_status (effects : List DbEffect) (i : Nat) : Option String :=
  effects.foldl
    (fun acc e =>
      match e with
      | .updateQueryLog j _ s => if j == i then some s else acc
      | _ => acc)
    none

/-- Final status of every query log created during a trace, in creation
order. -/
def final_log_statuses (effects : List DbEffect) : List String :=
  (List.range (query_log_inserts effects)).map fun i =>
    (last_update_status effects i).getD "pending"

/-- The text streamed to the caller so far: the concatenation of the
emitted chunks, in arrival order. -/
def emitted_text (chunks : List String) : String :=
  chunks.foldr (fun c acc => c ++ acc) ""

/-- Is an effect a stored chat message of the given type? -/
def stores_message_of_type (e : DbEffect) (t : String) : Bool :=
  match e with
  | .storeMessage m => m.type == t
  | _ => false

/-- Every query-log insert of a trace carries status `pending` (vacuously
true of the other effects). -/
def created_pending (e : DbEffect) : Bool :=
  match e with
  | .storeQueryLog _ _ _ s => s == "pending"
  | _ => true

/-! ## Shared lemmas -/

/-- The Source Mapper always returns exactly one mapping per input query:
the pass-through branch is guarded by the cardinality check, and both
fallback branches build one full-catalog mapping per query. -/
theorem map_queries_to_websites_length (generated_queries : List String)
    (dynamic_websites : List Site) (response : MapResponse) :
    (map_queries_to_websites generated_queries dynamic_websites response).length
      = generated_queries.length := by
  cases response with
  | parsed mappings =>
      by_cases h : mappings.length = generated_queries.length
      · simp [map_queries_to_websites, h]
      · simp [map_queries_to_websites, h, default_mapping]
  | failure e => simp [map_queries_to_websites, default_mapping]

theorem emitted_text_cons (s : String) (l : List String) :
    emitted_text (s :: l) = s ++ emitted_text l := rfl

/-- If the first mid-stream cancellation check to fire is the k-th one and
the text accumulated until then is non-blank, the streaming loop ends with
the partial message: accumulated text plus truncation marker, type
`partial`, replying to the user turn. -/
theorem summary_loop_first_cancel (uid : String) (cancelledAt : Nat → Bool) :
    ∀ (k : Nat) (chunks : List String) (start : Nat) (full : String),
      k < chunks.length →
      (∀ j, j < k → cancelledAt (start + j) = false) →
      cancelledAt (start + k) = true →
      python_strip (full ++ emitted_text (List.take k chunks)) ≠ "" →
      summary_stream_loop uid cancelledAt start full chunks =
        .truncatedStored
          { role := "assistant",
            content := (full ++ emitted_text (List.take k chunks)) ++
              "\n\n[Generation stopped by user]",
            replyTo := some uid, type := "partial" } := by
  intro k
  induction k with
  | zero =>
      intro chunks start full hk _ hat hne
      cases chunks with
      | nil => simp at hk
      | cons c rest =>
          rw [Nat.add_zero] at hat
          have hne' : python_strip full ≠ "" := by
            simpa [emitted_text] using hne
          rw [summary_stream_loop]
          simp [hat, hne', emitted_text]
  | succ k ih =>
      intro chunks start full hk hbefore hat hne
      cases chunks with
      | nil => simp at hk
      | cons c rest =>
          have h0 : cancelledAt start = false := by
            have h := hbefore 0 (Nat.succ_pos k)
            simpa using h
          have hcat : full ++ emitted_text (List.take (k + 1) (c :: rest)) =
              (full ++ c) ++ emitted_text (List.take k rest) := by
            rw [List.take_succ_cons, emitted_text_cons, ← String.append_assoc]
          have hstep : summary_stream_loop uid cancelledAt start full (c :: rest) =
              summary_stream_loop uid cancelledAt (start + 1) (full ++ c) rest := by
            rw [summary_stream_loop]
            simp [h0]
          rw [hstep]
          have hb : ∀ j, j < k → cancelledAt (start + 1 + j) = false := by
            intro j hj
            have h := hbefore (j + 1) (by omega)
            have e : start + (j + 1) = start + 1 + j := by omega
            rw [e] at h
            exact h
          have ha : cancelledAt (start + 1 + k) = true := by
            have e : start + (k + 1) = start + 1 + k := by omega
            rw [e] at hat
            exact hat
          have hn : python_strip ((full ++ c) ++ emitted_text (List.take k rest)) ≠ "" := by
            rw [hcat] at hne
            exact hne
          have hres := ih rest (start + 1) (full ++ c)
            (Nat.lt_of_succ_lt_succ hk) hb ha hn
          rw [hres, hcat]

/-- A `filterMap` whose function is total on the list is a `map`. -/
theorem filterMap_eq_map_of_all_some {α β : Type} (f : α → Option β)
    (g : α → β) (l : List α) (h : ∀ a ∈ l, f a = some (g a)) :
    l.filterMap f = l.map g := by
  induction l with
  | nil => rfl
  | cons a as ih =>
      rw [List.filterMap_cons_some (h a (List.mem_cons_self a as)),
        List.map_cons, ih fun b hb => h b (List.mem_cons_of_mem a hb)]

/-- With the cancellation flag never set, the streaming loop consumes all
chunks and completes with the full accumulated text. -/
theorem summary_loop_no_cancel (uid : String) (cancelledAt : Nat → Bool)
    (h : ∀ k, cancelledAt k = false) :
    ∀ (chunks : List String) (start : Nat) (full : String),
      summary_stream_loop uid cancelledAt start full chunks =
        .done (full ++ emitted_text chunks) := by
  intro chunks
  induction chunks with
  | nil =>
      intro start full
      simp [summary_stream_loop, emitted_text]
  | cons c rest ih =>
      intro start full
      rw [summary_stream_loop]
      simp only [h start, Bool.false_eq_true, if_false]
      rw [ih (start + 1) (full ++ c), emitted_text_cons,
        ← String.append_assoc]

/-- `query_log_updates` distributes over trace concatenation. -/
theorem query_log_updates_append (l₁ l₂ : List DbEffect) :
    query_log_updates (l₁ ++ l₂) =
      query_log_updates l₁ ++ query_log_updates l₂ :=
  List.filterMap_append _ _ _

/-- Query-log inserts contribute no updates. -/
theorem query_log_updates_store_logs (tasks : List SearchTask) (s : String) :
    query_log_updates (tasks.map fun t =>
      DbEffect.storeQueryLog t.query t.type t.websites s) = [] := by
  induction tasks with
  | nil => rfl
  | cons t ts ih =>
      simp [query_log_updates, List.filterMap_cons, ih]

/-- A stored chat message contributes no query-log update. -/
theorem query_log_updates_store_message (m : StoredMessage) :
    query_log_updates [DbEffect.storeMessage m] = [] := rfl

/-- A research-request update contributes no query-log update. -/
theorem query_log_updates_update_rr (s : String) :
    query_log_updates [DbEffect.updateResearchRequest s] = [] := rfl

/-- The post-synthesis update loop contributes one `(index, status)` pair
per result, in order. -/
theorem query_log_updates_update_map (pairs : List (Nat × SearchResult)) :
    query_log_updates (pairs.map fun p =>
        DbEffect.updateQueryLog p.1 p.2.result p.2.status) =
      pairs.map fun p => (p.1, p.2.status) := by
  induction pairs with
  | nil => rfl
  | cons p ps ih =>
      simpa [query_log_updates, List.filterMap_cons] using ih

/-- A run of the notice-creation path on a store that already holds a
notice for the turn changes nothing: the existence check (lines 560-566)
short-circuits every branch that writes. -/
theorem notice_path_step_of_exists (db : DBState) (mid sid fid : String)
    (h : cancellation_notice_exists db mid = true) :
    (is_message_cancelled_body db mid (some sid) false fid).2 = db := by
  unfold is_message_cancelled_body
  cases hf : db.messages.find? (fun m => m.messageId == mid) with
  | none => rfl
  | some row => by_cases hc : row.isCancelled <;> simp [hc, h]

/-- A run of the notice-creation path for a cancelled turn with no notice
yet appends exactly the one notice row. -/
theorem notice_path_step_of_absent (db : DBState) (mid sid fid : String)
    (hrow : cancelled_row db mid = true)
    (h : cancellation_notice_exists db mid = false) :
    (is_message_cancelled_body db mid (some sid) false fid).2 =
      ⟨db.messages ++
        [{ messageId := fid, sessionId := sid, role := "assistant",
           content := "Response generation stopped by user.",
           messageOrder := maxMessageOrder db sid + 1,
           replyTo := some mid, type := "cancelled",
           isCancelled := false }]⟩ := by
  unfold cancelled_row at hrow
  unfold is_message_cancelled_body
  cases hf : db.messages.find? (fun m => m.messageId == mid) with
  | none => rw [hf] at hrow; simp at hrow
  | some row =>
      rw [hf] at hrow
      have hc : row.isCancelled = true := hrow
      simp [hc, h]

/-- Iterating the notice path over a store that already holds a notice is
the identity. -/
theorem run_notice_path_of_exists (mid sid : String) :
    ∀ (fids : List String) (db : DBState),
      cancellation_notice_exists db mid = true →
      run_notice_path db mid sid fids = db := by
  intro fids
  induction fids with
  | nil => intro db _; rfl
  | cons fid rest ih =>
      intro db h
      rw [run_notice_path, notice_path_step_of_exists db mid sid fid h]
      exact ih db h

/-! ## Claim theorems -/

/-- Claim C1: the Parallel Search Executor returns exactly `len(tasks)`
result records, and the record at index `i` is determined by task `i` and
its own gather item alone — so no other task's timeout or error can cancel
or remove it.  The hypothesis is `asyncio.gather`'s guarantee that it
yields one item per awaited coroutine, in submission order. -/
theorem executor_returns_one_result_per_task (tasks : List SearchTask)
    (items : List GatherItem) (h : items.length = tasks.length) :
    (execute_workflow_with_progress_results tasks items).length = tasks.length ∧
    ∀ (i : Nat) (task : SearchTask) (item : GatherItem),
      tasks[i]? = some task → items[i]? = some item →
      (execute_workflow_with_progress_results tasks items)[i]? =
        some (process_gather_result task item) := by
  constructor
  · simp [execute_workflow_with_progress_results, h]
  · intro i task item htask hitem
    have hti : i < tasks.length := by
      have := List.getElem?_eq_some.mp htask
      exact this.1
    have hii : i < items.length := by
      have := List.getElem?_eq_some.mp hitem
      exact this.1
    have hlen : i < (execute_workflow_with_progress_results tasks items).length := by
      simpa [execute_workflow_with_progress_results, h] using hti
    rw [List.getElem?_eq_getElem hlen]
    have hz : (execute_workflow_with_progress_results tasks items)[i] =
        process_gather_result tasks[i] items[i] := by
      simp [execute_workflow_with_progress_results]
    rw [hz]
    have ht : tasks[i] = task := (List.getElem?_eq_some.mp htask).2
    have hi : items[i] = item := (List.getElem?_eq_some.mp hitem).2
    rw [ht, hi]

/-- Witness for C1 at a concrete two-task batch in which the second task's
coroutine was torn down by an escaping exception: both results are present,
in task order. -/
theorem executor_returns_one_result_per_task_witness :
    (execute_workflow_with_progress_results
        [{ type := "general_web", query := "q1", websites := [] },
         { type := "domain_filtered", query := "q2", websites := ["example.com"] }]
        [.ok (execute_search_task "Provide_a_List"
            { type := "general_web", query := "q1", websites := [] } .timeout),
         .exn "CancelledError"]).length = 2 ∧
    (execute_workflow_with_progress_results
        [{ type := "general_web", query := "q1", websites := [] },
         { type := "domain_filtered", query := "q2", websites := ["example.com"] }]
        [.ok (execute_search_task "Provide_a_List"
            { type := "general_web", query := "q1", websites := [] } .timeout),
         .exn "CancelledError"])[1]? =
      some (process_gather_result
        { type := "domain_filtered", query := "q2", websites := ["example.com"] }
        (.exn "CancelledError")) := by
  have h := executor_returns_one_result_per_task
    [{ type := "general_web", query := "q1", websites := [] },
     { type := "domain_filtered", query := "q2", websites := ["example.com"] }]
    [.ok (execute_search_task "Provide_a_List"
        { type := "general_web", query := "q1", websites := [] } .timeout),
     .exn "CancelledError"] rfl
  exact ⟨h.1, h.2 1 _ _ rfl rfl⟩

/-- Claim C2 counterexample: on a per-task timeout the recorded result
content is the fixed placeholder `Search timeout - no results available`
(workflows.py line 364), not empty text as the claim states. -/
theorem timeout_result_content_is_not_empty :
    (execute_search_task "Provide_a_List"
      { type := "general_web", query := "q", websites := [] } .timeout).result
      ≠ "" := by
  decide

/-- Claim C2 (amended): on timeout the recorded outcome has status
`timeout` with the fixed placeholder message `Search timeout - no results
available` as result text and empty citations and links; on any other
exception the outcome has status `error` with `Error: ` followed by the
exception text as the result payload; in both cases the record retains the
originating task's query, websites and search type. -/
theorem task_failure_outcomes_recorded (router_decision : String)
    (task : SearchTask) :
    (execute_search_task router_decision task .timeout =
      { query := task.query, result := "Search timeout - no results available",
        citations := [], extracted_links := [], status := "timeout",
        search_type := task.type, websites := task.websites }) ∧
    (∀ e, execute_search_task router_decision task (.exn e) =
      { query := task.query, result := "Error: " ++ e,
        citations := [], extracted_links := [], status := "error",
        search_type := task.type, websites := task.websites }) :=
  ⟨rfl, fun _ => rfl⟩

/-- Claim C3 counterexample: when the external call returns the right
number of mappings, they are passed through verbatim — the mapper never
checks that the returned entries correspond to the input sub-queries, so
the mapping used downstream need not have an entry per input sub-query. -/
theorem mapper_passthrough_ignores_query_identity :
    (map_queries_to_websites ["a"] [{ name := "S", domain := "s.com" }]
        (.parsed [{ query := "b", websites := ["s.com"] }])).map
        (fun m => m.query) ≠ ["a"] := by
  decide

/-- Claim C3 (amended): the mapping used downstream has exactly as many
entries as input sub-queries; if the external call returns a different
number of mappings than sub-queries supplied, or fails to parse, the
returned result is discarded and every sub-query is mapped, in input
order, to the full source catalog.  (When the cardinality matches, the
external call's entries are used verbatim, without checking that their
queries match the input sub-queries.) -/
theorem mapper_cardinality_and_fallback (generated_queries : List String)
    (dynamic_websites : List Site) (response : MapResponse) :
    (map_queries_to_websites generated_queries dynamic_websites response).length
      = generated_queries.length ∧
    (∀ mappings, response = .parsed mappings →
      mappings.length ≠ generated_queries.length →
      map_queries_to_websites generated_queries dynamic_websites response
        = default_mapping generated_queries dynamic_websites) ∧
    (∀ e, response = .failure e →
      map_queries_to_websites generated_queries dynamic_websites response
        = default_mapping generated_queries dynamic_websites) := by
  refine ⟨map_queries_to_websites_length _ _ _, ?_, ?_⟩
  · intro mappings hresp hne
    subst hresp
    simp [map_queries_to_websites, hne]
  · intro e hresp
    subst hresp
    rfl

/-- Witness for C3 (amended) at a concrete wrong-cardinality response:
one sub-query, an empty mapping list from the external call, fallback to
the full catalog. -/
theorem mapper_cardinality_and_fallback_witness :
    (map_queries_to_websites ["a"] [{ name := "S", domain := "s.com" }]
      (.parsed [])).length = 1 ∧
    map_queries_to_websites ["a"] [{ name := "S", domain := "s.com" }]
        (.parsed [])
      = default_mapping ["a"] [{ name := "S", domain := "s.com" }] := by
  have h := mapper_cardinality_and_fallback ["a"]
    [{ name := "S", domain := "s.com" }] (.parsed [])
  exact ⟨h.1, h.2.1 [] rfl (by decide)⟩

/-- Claim C4 (code bug): the Query Expander's fallback is broken.  On any
parsing or transport failure of the query-generation call the `except`
branch does assign `generated_queries = [router_query]`, but the debug
print on openai_service.py line 100 —
`print(f"[DEBUG] Queries to be mapped ({len(queries)}): {queries}")` —
reads the local `queries`, which is only bound when the call succeeded
(line 90).  The fallback path therefore raises an uncaught `NameError`
instead of returning the single-element list, so the expansion stage does
surface an error to the caller. -/
theorem expander_fallback_raises_nameerror :
    generate_and_map_research_queries "Provide_a_List" "restated query" []
        (.failure "transport error") (.parsed [])
      = .error "NameError: name queries is not defined" := rfl

/-- Claim C8: for a non-direct classified turn whose expander call
succeeded with sub-queries `qs`, the Driver hands the Executor exactly one
unscoped (`general_web`) task per sub-query plus one scoped
(`domain_filtered`) task per mapping with a non-empty source subset; since
the mapping list always has one entry per sub-query, the batch holds
between `n` and `2n` tasks for `n = qs.length`, and the Executor returns
exactly that many results. -/
theorem driver_task_fanout (router_query : String) (sites : List Site)
    (qs : List String) (mapResponse : MapResponse) (items : List GatherItem)
    (tasks : List SearchTask)
    (htasks : generate_and_map_research_queries "Provide_a_List" router_query
      sites (.ok qs) mapResponse = .ok tasks)
    (hitems : items.length = tasks.length) :
    (tasks.filter fun t => t.type == "general_web").length = qs.length ∧
    (tasks.filter fun t => t.type == "domain_filtered").length =
      ((map_queries_to_websites qs sites mapResponse).filter
        fun m => !m.websites.isEmpty).length ∧
    qs.length ≤ tasks.length ∧ tasks.length ≤ 2 * qs.length ∧
    (execute_workflow_with_progress_results tasks items).length =
      tasks.length := by
  have htasks' : tasks =
      build_search_tasks qs (map_queries_to_websites qs sites mapResponse) := by
    simp only [generate_and_map_research_queries] at htasks
    simp at htasks
    exact htasks.symm
  subst htasks'
  have hgg : ("general_web" == "general_web") = true := by decide
  have hdg : ("domain_filtered" == "general_web") = false := by decide
  have hdd : ("domain_filtered" == "domain_filtered") = true := by decide
  have hgd : ("general_web" == "domain_filtered") = false := by decide
  have hmaplen := map_queries_to_websites_length qs sites mapResponse
  have hlen : (build_search_tasks qs
      (map_queries_to_websites qs sites mapResponse)).length =
      qs.length + ((map_queries_to_websites qs sites mapResponse).filter
        fun m => !m.websites.isEmpty).length := by
    simp [build_search_tasks]
  refine ⟨?_, ?_, ?_, ?_, ?_⟩
  · simp [build_search_tasks, List.filter_append, List.filter_map,
      Function.comp_def, hgg, hdg]
  · simp [build_search_tasks, List.filter_append, List.filter_map,
      Function.comp_def, hdd, hgd]
  · rw [hlen]
    exact Nat.le_add_right _ _
  · rw [hlen]
    have hfle : ((map_queries_to_websites qs sites mapResponse).filter
        fun m => !m.websites.isEmpty).length ≤ qs.length := by
      calc ((map_queries_to_websites qs sites mapResponse).filter
              fun m => !m.websites.isEmpty).length
          ≤ (map_queries_to_websites qs sites mapResponse).length :=
            List.length_filter_le _ _
        _ = qs.length := hmaplen
    omega
  · simp [execute_workflow_with_progress_results, hitems]

/-- Witness for C8 (spec Scenario B shape): two sub-queries, the mapper
returns two mappings of which one has a non-empty source subset — the
batch has 2 unscoped + 1 scoped = 3 tasks (within [2,4]) and the Executor
returns 3 results. -/
theorem driver_task_fanout_witness :
    ((build_search_tasks ["a", "b"]
        (map_queries_to_websites ["a", "b"] [{ name := "S", domain := "s.com" }]
          (.parsed [{ query := "a", websites := ["s.com"] },
                    { query := "b", websites := [] }]))).filter
      fun t => t.type == "general_web").length = 2 ∧
    ((build_search_tasks ["a", "b"]
        (map_queries_to_websites ["a", "b"] [{ name := "S", domain := "s.com" }]
          (.parsed [{ query := "a", websites := ["s.com"] },
                    { query := "b", websites := [] }]))).length ≤ 2 * 2) := by
  have h := driver_task_fanout "rq" [{ name := "S", domain := "s.com" }]
    ["a", "b"]
    (.parsed [{ query := "a", websites := ["s.com"] },
              { query := "b", websites := [] }])
    [.exn "e1", .exn "e2", .exn "e3"]
    (build_search_tasks ["a", "b"]
      (map_queries_to_websites ["a", "b"] [{ name := "S", domain := "s.com" }]
        (.parsed [{ query := "a", websites := ["s.com"] },
                  { query := "b", websites := [] }])))
    (by rfl) (by decide)
  exact ⟨h.1, h.2.2.2.1⟩

/-- Claim C9 counterexample: the query-log update loop runs only after the
synthesis stream completes (endpoints.py lines 349-357 come after the
`async for` of lines 317-338).  Here the search batch completed — one task,
one `success` result — but cancellation during synthesis returns early, so
the request's only Query Log entry remains `pending` forever, which is not
a terminal status. -/
theorem cancelled_synthesis_leaves_logs_pending :
    final_log_statuses
      (stream_tail "u1"
        (some { search_tasks := [{ type := "general_web", query := "q",
                                   websites := [] }],
                search_results := [{ query := "q", result := "ans",
                                     citations := [], extracted_links := [],
                                     status := "success",
                                     search_type := "general_web",
                                     websites := [] }] })
        ["x"] (fun _ => true)).1 = ["pending"] ∧
    "pending" ∉ (["success", "error", "timeout"] : List String) := by
  constructor
  · rfl
  · decide

/-- Claim C9 (amended): every Query Log entry is created with status
`pending`, and for every pipeline run whose synthesis stream runs to
completion each entry of the request is transitioned by exactly one update
to the status of its search result — a terminal status in
{success, error, timeout} whenever the results carry terminal statuses —
and no update ever writes `pending` back.  (A run cancelled or failing
during synthesis skips the update loop, so its entries stay `pending` even
though the search batch completed.) -/
theorem completed_run_settles_query_logs (uid : String) (r : WorkflowResult)
    (chunks : List String) (cancelledAt : Nat → Bool)
    (hnc : ∀ k, cancelledAt k = false)
    (hlen : r.search_results.length = r.search_tasks.length)
    (hterm : ∀ sr ∈ r.search_results,
      sr.status ∈ (["success", "error", "timeout"] : List String)) :
    (stream_tail uid (some r) chunks cancelledAt).2 = .completed ∧
    (∀ e ∈ (stream_tail uid (some r) chunks cancelledAt).1,
      created_pending e = true) ∧
    query_log_updates (stream_tail uid (some r) chunks cancelledAt).1 =
      r.search_results.enum.map (fun p => (p.1, p.2.status)) ∧
    (query_log_updates
      (stream_tail uid (some r) chunks cancelledAt).1).map Prod.fst =
      List.range r.search_tasks.length ∧
    ∀ p ∈ query_log_updates (stream_tail uid (some r) chunks cancelledAt).1,
      p.2 ≠ "pending" := by
  have hloop := summary_loop_no_cancel uid cancelledAt hnc chunks 0 ""
  have hupd : r.search_results.enum.filterMap
      (fun p => if p.1 < r.search_tasks.length then
        some (DbEffect.updateQueryLog p.1 p.2.result p.2.status) else none) =
      r.search_results.enum.map
        (fun p => DbEffect.updateQueryLog p.1 p.2.result p.2.status) := by
    apply filterMap_eq_map_of_all_some
    intro p hp
    have h1 := List.fst_lt_of_mem_enum hp
    rw [if_pos (by omega)]
  have hmain : stream_tail uid (some r) chunks cancelledAt =
      ((r.search_tasks.map fun t =>
          DbEffect.storeQueryLog t.query t.type t.websites "pending") ++
        [DbEffect.storeMessage
          { role := "assistant", content := "" ++ emitted_text chunks,
            replyTo := some uid, type := "text" }] ++
        r.search_results.enum.map
          (fun p => DbEffect.updateQueryLog p.1 p.2.result p.2.status) ++
        [DbEffect.updateResearchRequest "completed"], .completed) := by
    simp only [stream_tail]
    rw [hloop, hupd]
  have hups : query_log_updates
      (stream_tail uid (some r) chunks cancelledAt).1 =
      r.search_results.enum.map (fun p => (p.1, p.2.status)) := by
    rw [hmain]
    simp only [query_log_updates_append, query_log_updates_store_logs,
      query_log_updates_store_message, query_log_updates_update_rr,
      query_log_updates_update_map, List.nil_append, List.append_nil]
  refine ⟨by rw [hmain], ?_, hups, ?_, ?_⟩
  · intro e he
    rw [hmain] at he
    simp only [List.mem_append, List.mem_map, List.mem_singleton] at he
    rcases he with ((⟨t, _, rfl⟩ | rfl) | ⟨p, _, rfl⟩) | rfl
    · rfl
    · rfl
    · rfl
    · rfl
  · rw [hups, List.map_map]
    have hfst : (Prod.fst ∘ fun p : Nat × SearchResult =>
        ((p.1, p.2.status) : Nat × String)) = Prod.fst := rfl
    rw [hfst, List.enum_map_fst, hlen]
  · intro p hp
    rw [hups] at hp
    simp only [List.mem_map] at hp
    obtain ⟨q, hq, rfl⟩ := hp
    have hmem := List.snd_mem_of_mem_enum hq
    have hst := hterm q.2 hmem
    simp only [List.mem_cons, List.not_mem_nil, or_false] at hst
    have hne : q.2.status ≠ "pending" := by
      rcases hst with h | h | h <;> rw [h] <;> decide
    exact hne

/-- Witness for C9 (amended): one task, one `success` result, no
cancellation — the single log entry is updated exactly once, to
`success`. -/
theorem completed_run_settles_query_logs_witness :
    query_log_updates
      (stream_tail "u1"
        (some { search_tasks := [{ type := "general_web", query := "q",
                                   websites := [] }],
                search_results := [{ query := "q", result := "ans",
                                     citations := [], extracted_links := [],
                                     status := "success",
                                     search_type := "general_web",
                                     websites := [] }] })
        ["x"] (fun _ => false)).1 = [(0, "success")] := by
  have h := completed_run_settles_query_logs "u1"
    { search_tasks := [{ type := "general_web", query := "q", websites := [] }],
      search_results := [{ query := "q", result := "ans", citations := [],
                           extracted_links := [], status := "success",
                           search_type := "general_web", websites := [] }] }
    ["x"] (fun _ => false) (fun _ => rfl) (by decide) (by decide)
  exact h.2.2.1

/-- Claim C10: `is_message_cancelled` never raises and fails open — when
the underlying store query raises, the `except` handler returns `False`
(database_service.py lines 601-603), and a message id with no stored row
returns `False` (lines 552-553). -/
theorem cancellation_gate_fails_open (message_id : String)
    (session_id : Option String) (skip : Bool) (fresh_id : String) :
    (∀ e, (is_message_cancelled (.failure e) message_id session_id skip
        fresh_id).1 = false) ∧
    (∀ db, db.messages.find? (fun m => m.messageId == message_id) = none →
      (is_message_cancelled (.ok db) message_id session_id skip
        fresh_id).1 = false) := by
  constructor
  · intro e
    rfl
  · intro db h
    simp [is_message_cancelled, is_message_cancelled_body, h]

/-- Claim C5: when the cancellation flag is first found set at the k-th
mid-stream check of the synthesis loop and the already-streamed text is
non-blank, `chat_stream_summary` persists exactly that accumulated text
with the truncation marker `[Generation stopped by user]` as an assistant
turn of type `partial` replying to the user turn, emits the `cancelled`
event, and performs no further writes — in particular no stored message of
type `cancelled` (the mid-stream checks pass
`skip_cancellation_message=True`, which per `is_message_cancelled_body`
never inserts), so previously streamed output is kept, never discarded. -/
theorem midstream_cancel_keeps_streamed_text (uid : String) (r : WorkflowResult)
    (chunks : List String) (cancelledAt : Nat → Bool) (k : Nat)
    (hk : k < chunks.length)
    (hbefore : ∀ j, j < k → cancelledAt j = false)
    (hat : cancelledAt k = true)
    (hnonempty : python_strip (emitted_text (List.take k chunks)) ≠ "") :
    stream_tail uid (some r) chunks cancelledAt =
      ((r.search_tasks.map fun t =>
          DbEffect.storeQueryLog t.query t.type t.websites "pending") ++
        [DbEffect.storeMessage
          { role := "assistant",
            content := emitted_text (List.take k chunks) ++
              "\n\n[Generation stopped by user]",
            replyTo := some uid, type := "partial" }],
        StreamEvent.cancelled) ∧
    ∀ e ∈ (stream_tail uid (some r) chunks cancelledAt).1,
      stores_message_of_type e "cancelled" = false := by
  have hloop := summary_loop_first_cancel uid cancelledAt k chunks 0 ""
    hk (by intro j hj; simpa using hbefore j hj) (by simpa using hat)
    (by simpa using hnonempty)
  have hmain : stream_tail uid (some r) chunks cancelledAt =
      ((r.search_tasks.map fun t =>
          DbEffect.storeQueryLog t.query t.type t.websites "pending") ++
        [DbEffect.storeMessage
          { role := "assistant",
            content := emitted_text (List.take k chunks) ++
              "\n\n[Generation stopped by user]",
            replyTo := some uid, type := "partial" }],
        StreamEvent.cancelled) := by
    simp only [stream_tail]
    rw [hloop]
    simp [String.empty_append, String.append_assoc]
  refine ⟨hmain, ?_⟩
  intro e he
  rw [hmain] at he
  simp only [List.mem_append, List.mem_map, List.mem_singleton] at he
  rcases he with ⟨t, _, rfl⟩ | rfl
  · rfl
  · rfl

/-- Witness for C5: two chunks streamed, cancellation detected at the
second check; the stored turn is the first chunk plus the marker, and no
`cancelled`-type message is stored. -/
theorem midstream_cancel_keeps_streamed_text_witness :
    stream_tail "u1"
        (some { search_tasks := [{ type := "general_web", query := "q",
                                   websites := [] }],
                search_results := [{ query := "q", result := "ans",
                                     citations := [], extracted_links := [],
                                     status := "success",
                                     search_type := "general_web",
                                     websites := [] }] })
        ["Hello", " there"] (fun n => n == 1) =
      ([DbEffect.storeQueryLog "q" "general_web" [] "pending",
        DbEffect.storeMessage
          { role := "assistant",
            content := emitted_text (List.take 1 ["Hello", " there"]) ++
              "\n\n[Generation stopped by user]",
            replyTo := some "u1", type := "partial" }],
       StreamEvent.cancelled) := by
  have h := midstream_cancel_keeps_streamed_text "u1"
    { search_tasks := [{ type := "general_web", query := "q", websites := [] }],
      search_results := [{ query := "q", result := "ans", citations := [],
                           extracted_links := [], status := "success",
                           search_type := "general_web", websites := [] }] }
    ["Hello", " there"] (fun n => n == 1) 1
    (by decide) (by decide) (by decide) (by decide)
  exact h.1

/-- Claim C6: running the cancellation-notice creation path
(`is_message_cancelled` with a truthy session id and the default
`skip_cancellation_message=False`) any positive number of times for a
cancelled turn that has no notice yet leaves exactly one Cancellation
Notice row, and every notice row for that turn has role `assistant`, type
`cancelled`, `reply_to` the original turn, and the fixed notice text: the
existence check before the insert makes the second and later runs
no-ops. -/
theorem cancellation_notice_created_once (db : DBState) (mid sid : String)
    (fids : List String) (hrow : cancelled_row db mid = true)
    (h0 : noticeCount db mid = 0) (hne : fids ≠ []) :
    noticeCount (run_notice_path db mid sid fids) mid = 1 ∧
    ∀ m ∈ (run_notice_path db mid sid fids).messages,
      (m.replyTo == some mid && m.type == "cancelled") = true →
      m.role = "assistant" ∧
      m.content = "Response generation stopped by user." := by
  cases fids with
  | nil => exact absurd rfl hne
  | cons fid rest =>
      have habs : cancellation_notice_exists db mid = false := by
        have hall := List.countP_eq_zero.mp h0
        simp only [cancellation_notice_exists, List.any_eq_false]
        intro m hm
        exact hall m hm
      have hstep := notice_path_step_of_absent db mid sid fid hrow habs
      set notice : ChatMessage :=
        { messageId := fid, sessionId := sid, role := "assistant",
          content := "Response generation stopped by user.",
          messageOrder := maxMessageOrder db sid + 1,
          replyTo := some mid, type := "cancelled",
          isCancelled := false } with hnotice
      have hpred : ((notice.replyTo == some mid) &&
          (notice.type == "cancelled")) = true := by
        rw [hnotice]
        simp
      have hS1exists :
          cancellation_notice_exists ⟨db.messages ++ [notice]⟩ mid = true := by
        simp only [cancellation_notice_exists, List.any_append, List.any_cons,
          List.any_nil, Bool.or_eq_true]
        right
        simp [hnotice]
      have hrun : run_notice_path db mid sid (fid :: rest) =
          ⟨db.messages ++ [notice]⟩ := by
        rw [run_notice_path, hstep]
        exact run_notice_path_of_exists mid sid rest _ hS1exists
      rw [hrun]
      constructor
      · show (db.messages ++ [notice]).countP _ = 1
        rw [List.countP_append]
        simp only [noticeCount] at h0
        rw [h0]
        simp [hnotice]
      · intro m hm hmpred
        rcases List.mem_append.mp hm with hin | hin
        · exfalso
          exact (List.countP_eq_zero.mp h0 m hin) hmpred
        · have : m = notice := by simpa using hin
          subst this
          exact ⟨rfl, rfl⟩

/-- Witness for C6: a store holding one cancelled user turn; running the
notice path twice yields exactly one notice. -/
theorem cancellation_notice_created_once_witness :
    noticeCount
      (run_notice_path
        ⟨[{ messageId := "m1", sessionId := "s1", role := "user",
            content := "question", messageOrder := 1, replyTo := none,
            type := "text", isCancelled := true }]⟩
        "m1" "s1" ["n1", "n2"]) "m1" = 1 := by
  have h := cancellation_notice_created_once
    ⟨[{ messageId := "m1", sessionId := "s1", role := "user",
        content := "question", messageOrder := 1, replyTo := none,
        type := "text", isCancelled := true }]⟩
    "m1" "s1" ["n1", "n2"] (by decide) (by decide) (by decide)
  exact h.1

/-- Claim C7 counterexample: both endpoints call `store_research_request`
for every successful router answer before branching on the mode
(endpoints.py lines 221-227 and 427-433), so a direct-mode turn does
insert a Research Request row — the table is not unaffected, and a row
does not exist only for non-direct turns. -/
theorem direct_mode_inserts_research_request :
    research_request_inserts
      (chat_send "Hi" [("user", "Hi")] (.ok [])
        (some ("direct_response", "Hi there")) (.ok []) (.parsed []) []
        "summary" "u1").1 ≠ 0 := by
  decide

/-- Claim C7 (amended): when the classifier chooses direct mode the
pipeline terminates after the classification stage with the classifier's
free-text reply persisted as the assistant turn, and a Research Request
row is created for the turn — as it is for every classified turn — and
immediately marked completed; no query logs and no search tasks are
produced. -/
theorem direct_mode_trace (content enhanced_query : String)
    (recent : List (String × String)) (sites : List Site)
    (expand : ExpandResult) (mapResponse : MapResponse)
    (base_items : List BaseGatherItem) (summary uid : String)
    (hlatest : ∃ s, get_latest_user_message recent = some s) :
    chat_send content recent (.ok sites)
        (some ("direct_response", enhanced_query)) expand mapResponse
        base_items summary uid =
      ([.storeMessage { role := "user", content := content, replyTo := none,
                        type := "text" },
        .storeResearchRequest enhanced_query "direct_response",
        .storeMessage { role := "assistant", content := enhanced_query,
                        replyTo := some uid, type := "text" },
        .updateResearchRequest "completed"], none) ∧
    query_log_inserts
      (chat_send content recent (.ok sites)
        (some ("direct_response", enhanced_query)) expand mapResponse
        base_items summary uid).1 = 0 := by
  obtain ⟨s, hs⟩ := hlatest
  have hmain : chat_send content recent (.ok sites)
      (some ("direct_response", enhanced_query)) expand mapResponse
      base_items summary uid =
      ([.storeMessage { role := "user", content := content, replyTo := none,
                        type := "text" },
        .storeResearchRequest enhanced_query "direct_response",
        .storeMessage { role := "assistant", content := enhanced_query,
                        replyTo := some uid, type := "text" },
        .updateResearchRequest "completed"], none) := by
    simp [chat_send, hs]
  refine ⟨hmain, ?_⟩
  rw [hmain]
  rfl

/-- Witness for C7 (amended) at a concrete direct-mode exchange. -/
theorem direct_mode_trace_witness :
    chat_send "Hi" [("user", "Hi")] (.ok [])
        (some ("direct_response", "Hi there")) (.ok []) (.parsed []) []
        "summary" "u1" =
      ([.storeMessage { role := "user", content := "Hi", replyTo := none,
                        type := "text" },
        .storeResearchRequest "Hi there" "direct_response",
        .storeMessage { role := "assistant", content := "Hi there",
                        replyTo := some "u1", type := "text" },
        .updateResearchRequest "completed"], none) := by
  have h := direct_mode_trace "Hi" "Hi there" [("user", "Hi")] [] (.ok [])
    (.parsed []) [] "summary" "u1" ⟨"Hi", rfl⟩
  exact h.1

/-- Witness for C10: a concrete store failure and a concrete empty store
both yield `false` (not cancelled). -/
theorem cancellation_gate_fails_open_witness :
    (is_message_cancelled (.failure "connection refused") "m1" (some "s1")
      false "n1").1 = false ∧
    (is_message_cancelled (.ok ⟨[]⟩) "m1" (some "s1") false "n1").1 = false := by
  have h := cancellation_gate_fails_open "m1" (some "s1") false "n1"
  exact ⟨h.1 "connection refused", h.2 ⟨[]⟩ rfl⟩

end Goldfinch
